import Mathlib

/-!
Verification of the Bumblebee `optirun` client (`src/optirun.c`).

The development shallowly embeds the parts of `main` (and its helpers) that
the specification talks about:

* option parsing (the `getopt` loop of lines 99-133, with the literal
  optstring `"+cvVm:X:l:u:h|help"` and the `switch` cases),
* run-mode resolution (lines 138-140),
* the connection attempt and its failure path (lines 150-155),
* the status-mode exchange (lines 160-170),
* the application-mode read loop and its verdict dispatch (lines 173-220),
* the `vglrun` argument-vector construction (lines 197-209),
* the final fallthrough (lines 222-224).

External collaborators (socket primitives, `bb_run_exec` / `bb_run_fork` /
`bb_run_fork_wait`, the logger) are modelled as events emitted in program
order; the daemon's replies are an input list, one entry per successful
`socketRead` (the loop skips reads with `r <= 0`, modelled as empty entries).
-/

namespace Optirun

/-- Buffer size used for `snprintf` copies and the `strncmp` bound.  Its
definition lives in `bbconfig.h`, outside the shown sources; the value 256 is
used here and nothing below depends on it beyond `6 ≤ BUFFER_SIZE`. -/
def BUFFER_SIZE : Nat := 256

/-- Model of `snprintf(dst, BUFFER_SIZE, "%s", src)`: at most
`BUFFER_SIZE - 1` characters are copied and the result is NUL-terminated. -/
def snprintfCopy (s : String) : String :=
  String.mk (s.data.take (BUFFER_SIZE - 1))

/-- Verbosity levels of `bb_status.verbosity` (`VERB_NONE`, `VERB_WARN`,
`VERB_INFO`, `VERB_DEBUG`); the spec names them Quiet, Warn, Info, Debug. -/
inductive Verbosity where
  | quiet
  | warn
  | info
  | debug
  deriving DecidableEq, Repr

/-- Run modes referenced by `optirun`: `BB_RUN_APP` and `BB_RUN_STATUS`. -/
inductive RunMode where
  | runApp
  | runStatus
  deriving DecidableEq, Repr

/-- The `bb_config` fields `optirun` reads or writes: X display, LD driver
path, unix socket path and the VirtualGL compression method. -/
structure BBConfig where
  x_display : String
  ld_path : String
  socket_path : String
  vgl_compress : String
  deriving DecidableEq, Repr

/-- Mutable state accumulated by the option loop: the verbosity set in
`bb_status` plus the `bb_config` fields. -/
structure OptState where
  verbosity : Verbosity
  config : BBConfig
  deriving DecidableEq, Repr

/-- State on entry to the option loop: line 93 sets `VERB_WARN`; the
`bb_config` fields hold whatever `read_configuration` (an external
collaborator, `bbconfig.c`) produced, taken here as an arbitrary input. -/
def initOptState (cfg : BBConfig) : OptState :=
  { verbosity := Verbosity.warn, config := cfg }

/-- Characters of the getopt optstring `"+cvVm:X:l:u:h|help"` (line 100).
The leading `+` selects REQUIRE_ORDER (stop at the first non-option, no
permutation) and is skipped by `getopt` for lookups, so it is omitted from
the lookup list; the ordering it selects is built into `getoptGo` below. -/
def getoptOptstring : List Char := "cvVm:X:l:u:h|help".data

/-- First occurrence lookup of an option character in an optstring, as
`strchr` performs it: `none` when absent, otherwise whether the option takes
an argument (next character is a colon). -/
def optLookup : List Char → Char → Option Bool
  | [], _ => none
  | c :: rest, x =>
    if c = x then some (rest.head? = some ':') else optLookup rest x

/-- Classification of an option character by `getopt`: a literal colon is
never a valid option, everything else is looked up in the optstring. -/
def optType (x : Char) : Option Bool :=
  if x = ':' then none else optLookup getoptOptstring x

/-- Exit codes used by `optirun`. -/
def EXIT_SUCCESS : Nat := 0

/-- Failure exit code. -/
def EXIT_FAILURE : Nat := 1

/-- Result of one `switch` dispatch in the option loop: either the updated
state, or a `print_usage(code)` call, which exits the process. -/
inductive OptAction where
  | set (st : OptState)
  | exit (code : Nat)
  deriving DecidableEq, Repr

/-- The `switch (c)` of lines 101-132.  `'h'` prints usage and exits 0;
`'q'` would select quiet mode (this case is unreachable because `'q'` is not
in the optstring); `'v'` raises verbosity, twice giving debug; `'X'`, `'l'`,
`'u'`, `'m'` copy their argument into `bb_config` with `snprintf`; every
other character (including the `'?'` getopt produces for unrecognized
options) falls to `default`, printing usage and exiting nonzero. -/
def applySwitch (st : OptState) (c : Char) (optarg : String) : OptAction :=
  match c with
  | 'h' => OptAction.exit EXIT_SUCCESS
  | 'q' => OptAction.set { st with verbosity := Verbosity.quiet }
  | 'v' =>
    if st.verbosity = Verbosity.info then
      OptAction.set { st with verbosity := Verbosity.debug }
    else
      OptAction.set { st with verbosity := Verbosity.info }
  | 'X' => OptAction.set { st with config.x_display := snprintfCopy optarg }
  | 'l' => OptAction.set { st with config.ld_path := snprintfCopy optarg }
  | 'u' => OptAction.set { st with config.socket_path := snprintfCopy optarg }
  | 'm' => OptAction.set { st with config.vgl_compress := snprintfCopy optarg }
  | _ => OptAction.exit EXIT_FAILURE

/-- Outcome of scanning one clustered option element (e.g. `-vX0`): the
cluster finished, or its last option needs the next argv element as its
argument, or a usage exit occurred. -/
inductive ClusterOut where
  | done (st : OptState)
  | needArg (st : OptState) (c : Char)
  | exit (code : Nat)
  deriving DecidableEq, Repr

/-- Scan the characters of one option element after its leading dash, the
way `getopt` walks `nextchar`: unknown characters yield `'?'` and hence the
usage exit; an option requiring an argument takes the rest of the element if
nonempty, otherwise the next argv element is requested. -/
def runCluster (st : OptState) : List Char → ClusterOut
  | [] => ClusterOut.done st
  | c :: cs =>
    match optType c with
    | none => ClusterOut.exit EXIT_FAILURE
    | some false =>
      match applySwitch st c "" with
      | OptAction.set st' => runCluster st' cs
      | OptAction.exit code => ClusterOut.exit code
    | some true =>
      match cs with
      | [] => ClusterOut.needArg st c
      | _ :: _ =>
        match applySwitch st c (String.mk cs) with
        | OptAction.set st' => ClusterOut.done st'
        | OptAction.exit code => ClusterOut.exit code

/-- Result of the whole option loop: a usage exit, or the final state and
the trailing arguments `argv[optind..]`. -/
inductive ParsePhase where
  | exit (code : Nat)
  | parsed (st : OptState) (trailing : List String)
  deriving DecidableEq, Repr

/-- The `while ((c = getopt(...)) != -1)` loop of lines 100-133 in
REQUIRE_ORDER mode: a bare `"--"` ends the scan consuming itself; an element
starting with a dash and at least two characters long is an option cluster;
the first other element stops the scan and starts the trailing arguments.
A missing required argument makes getopt return `'?'` (the optstring does
not begin with a colon), which the `default` case turns into a usage exit. -/
def getoptGo (st : OptState) : List String → ParsePhase
  | [] => ParsePhase.parsed st []
  | a :: rest =>
    if a = "--" then ParsePhase.parsed st rest
    else if 2 ≤ a.length ∧ a.data.head? = some '-' then
      match runCluster st (a.data.drop 1) with
      | ClusterOut.exit code => ParsePhase.exit code
      | ClusterOut.done st' => getoptGo st' rest
      | ClusterOut.needArg st' c =>
        match rest with
        | [] => ParsePhase.exit EXIT_FAILURE
        | optarg :: rest' =>
          match applySwitch st' c optarg with
          | OptAction.set st'' => getoptGo st'' rest'
          | OptAction.exit code => ParsePhase.exit code
    else ParsePhase.parsed st (a :: rest)

/-- Option parsing for a full invocation: `args` is `argv` without the
program name, scanned from the initial state. -/
def parseArgs (args : List String) (cfg : BBConfig) : ParsePhase :=
  getoptGo (initOptState cfg) args

/-- Run-mode resolution of lines 138-140: when the mode is still
`BB_RUN_APP` and no trailing application was given, it becomes
`BB_RUN_STATUS`. -/
def resolveRunMode (rm : RunMode) (trailing : List String) : RunMode :=
  if rm = RunMode.runApp ∧ trailing.isEmpty then RunMode.runStatus else rm

/-- Model of C `strncmp` on NUL-free character lists (the implicit
terminator follows the last element): compare at most `n` characters,
stopping at a difference or at the end of either string; the sign of the
result is the sign of the first difference, with NUL comparing as 0. -/
def strncmpList : List Char → List Char → Nat → Int
  | _, _, 0 => 0
  | [], [], _ => 0
  | [], d :: _, _ => -(d.toNat : Int)
  | c :: _, [], _ => (c.toNat : Int)
  | c :: s, d :: t, n + 1 =>
    if c = d then strncmpList s t n
    else (c.toNat : Int) - (d.toNat : Int)

/-- Observable actions of `main` after option parsing, in program order. -/
inductive Event where
  | connect (path : String)
  | logConnectError
  | sendReq (msg : String)
  | printStatus (s : String)
  | logResponse (s : String)
  | logRunNormal
  | logRunVgl
  | logProblem (s : String)
  | close
  | spawnExec (argv : List String)
  | spawnFork (argv : List String)
  | spawnForkWait (argv : List (Option String))
  | closeLog
  | stopAll
  deriving DecidableEq, Repr

/-- Whether an event closes the daemon socket (`socketClose`). -/
def isClose : Event → Bool
  | Event.close => true
  | _ => false

/-- Whether an event starts a child process or replaces the image
(`bb_run_exec`, `bb_run_fork`, `bb_run_fork_wait`). -/
def isSpawn : Event → Bool
  | Event.spawnExec _ => true
  | Event.spawnFork _ => true
  | Event.spawnForkWait _ => true
  | _ => false

/-- Whether an event replaces the current process image (`bb_run_exec`). -/
def isExec : Event → Bool
  | Event.spawnExec _ => true
  | _ => false

/-- The copy loop of lines 206-208: `for (r = 0; r < argc - optind; r++)
vglrun_args[8 + r] = argv[optind + r];`, as successive in-place stores. -/
def copyArgsFrom (v : List (Option String)) (base : Nat) : List String → List (Option String)
  | [] => v
  | a :: rest => copyArgsFrom (v.set base (some a)) (base + 1) rest

/-- The `vglrun` argument vector of lines 197-209: a slot array of
`9 + (argc - optind)` entries (`malloc`ed storage modelled as `none` slots),
the seven fixed leading tokens and the `"--"` separator stored at indices
0-7, the passthrough arguments copied at 8 onward, and the terminating null
pointer stored at index `8 + (argc - optind)`. -/
def buildVglrunArgs (cfg : BBConfig) (passthrough : List String) : List (Option String) :=
  let n := passthrough.length
  let v := List.replicate (9 + n) (none : Option String)
  let v := v.set 0 (some "vglrun")
  let v := v.set 1 (some "-c")
  let v := v.set 2 (some cfg.vgl_compress)
  let v := v.set 3 (some "-d")
  let v := v.set 4 (some cfg.x_display)
  let v := v.set 5 (some "-ld")
  let v := v.set 6 (some cfg.ld_path)
  let v := v.set 7 (some "--")
  let v := copyArgsFrom v 8 passthrough
  v.set (8 + n) none

/-- The token sequence process creation reads from a NUL-terminated argument
vector: everything before the first null pointer. -/
def cArgv : List (Option String) → List String
  | [] => []
  | none :: _ => []
  | some s :: rest => s :: cArgv rest

/-- Verdict dispatch for one non-empty reply (lines 179-217): the reply is
logged, then its first byte selects the branch.  `'N'`: close the socket,
log, and execute the trailing arguments in place.  `'Y'`: log, fork the
detached `vglclient` companion when the compression method differs from
`"proxy"` under `strncmp`, fork-and-wait on the spliced `vglrun` vector,
then close.  Anything else: log the payload as a problem and close. -/
def handleReply (cfg : BBConfig) (passthrough : List String) (reply : List Char) : List Event :=
  match reply with
  | [] => []
  | c :: _ =>
    Event.logResponse (String.mk reply) ::
      (if c = 'N' then
        [Event.close, Event.logRunNormal, Event.spawnExec passthrough]
      else if c = 'Y' then
        [Event.logRunVgl] ++
          (if strncmpList cfg.vgl_compress.data "proxy".data BUFFER_SIZE ≠ 0 then
            [Event.spawnFork ["vglclient", "-detach"]]
          else []) ++
          [Event.spawnForkWait (buildVglrunArgs cfg passthrough), Event.close]
      else
        [Event.logProblem (String.mk reply), Event.close])

/-- The application-mode read loop of lines 176-219: while the socket is
open, each successful read (`r > 0`, a non-empty entry) is dispatched, and
the loop continues with the socket open only if the dispatch did not close
it; reads with `r <= 0` (empty entries) leave the state unchanged. -/
def appLoop (cfg : BBConfig) (passthrough : List String) : List (List Char) → Bool → List Event
  | _, false => []
  | [], true => []
  | r :: rest, true =>
    if r.isEmpty then appLoop cfg passthrough rest true
    else
      handleReply cfg passthrough r ++
        appLoop cfg passthrough rest (!(handleReply cfg passthrough r).any isClose)

/-- The status-mode read loop of lines 163-169: each successful read prints
a status line and closes the socket, ending the loop. -/
def statusLoop : List (List Char) → Bool → List Event
  | _, false => []
  | [], true => []
  | r :: rest, true =>
    if r.isEmpty then statusLoop rest true
    else
      Event.printStatus (String.mk r) :: Event.close :: statusLoop rest false

/-- Result of a full run: the events in program order, and the exit status
of `main` — `none` when `bb_run_exec` replaced the process image (the status
is then determined by the executed program, or by `bb_run_exec`'s own
failure exit, not by this code). -/
structure MainResult where
  events : List Event
  exitStatus : Option Nat
  deriving Repr

/-- Lines 138-224 after a successful option scan: resolve the run mode,
initialize the log (failure returns 1), connect (failure logs an error,
closes the log and returns `EXIT_FAILURE`), run the mode-specific exchange,
and fall through to `bb_closelog`, `bb_stop_all` and `EXIT_SUCCESS`. -/
def mainAfterParse (st : OptState) (trailing : List String) (rm : RunMode)
    (logOk : Bool) (connectOk : Bool) (replies : List (List Char)) : MainResult :=
  let mode := resolveRunMode rm trailing
  if !logOk then { events := [], exitStatus := some 1 }
  else if !connectOk then
    { events := [Event.connect st.config.socket_path, Event.logConnectError, Event.closeLog],
      exitStatus := some EXIT_FAILURE }
  else
    match mode with
    | RunMode.runStatus =>
      { events :=
          [Event.connect st.config.socket_path, Event.sendReq "Status?"] ++
            statusLoop replies true ++ [Event.closeLog, Event.stopAll],
        exitStatus := some EXIT_SUCCESS }
    | RunMode.runApp =>
      if (appLoop st.config trailing replies true).any isExec then
        { events :=
            [Event.connect st.config.socket_path, Event.sendReq "Checking availability..."] ++
              appLoop st.config trailing replies true,
          exitStatus := none }
      else
        { events :=
            [Event.connect st.config.socket_path, Event.sendReq "Checking availability..."] ++
              appLoop st.config trailing replies true ++ [Event.closeLog, Event.stopAll],
          exitStatus := some EXIT_SUCCESS }

/-- The whole of `main` for one invocation: `args` is `argv` without the
program name, `cfg` the configuration produced by `read_configuration`,
`rm` the run mode on entry to line 138 (line 95 sets it to `BB_RUN_APP`),
`logOk` and `connectOk` the outcomes of `bb_init_log` and `socketConnect`,
and `replies` the daemon's reply stream. -/
def mainModel (cfg : BBConfig) (rm : RunMode) (args : List String)
    (logOk : Bool) (connectOk : Bool) (replies : List (List Char)) : MainResult :=
  match parseArgs args cfg with
  | ParsePhase.exit code => { events := [], exitStatus := some code }
  | ParsePhase.parsed st trailing => mainAfterParse st trailing rm logOk connectOk replies

/-- Sample configuration used by the concrete witnesses. -/
def cfgEx : BBConfig :=
  { x_display := ":0", ld_path := "/usr/lib", socket_path := "/var/run/bb.socket",
    vgl_compress := "jpeg" }

/-- State after parsing no options over `cfgEx`. -/
def stEx : OptState := initOptState cfgEx

/-- Characters are determined by their code points. -/
lemma char_toNat_inj {a b : Char} (h : a.toNat = b.toNat) : a = b := by
  have h2 := congrArg Char.ofNat h
  rwa [Char.ofNat_toNat, Char.ofNat_toNat] at h2

/-- A character other than NUL has a nonzero code point. -/
lemma char_toNat_ne_zero {a : Char} (ha : a ≠ Char.ofNat 0) : a.toNat ≠ 0 := by
  intro h
  apply ha
  apply char_toNat_inj
  rw [h]
  decide

/-- On NUL-free character lists, `strncmpList` returns zero exactly when the
first `n` characters agree. -/
lemma strncmpList_eq_zero_iff (n : Nat) (s t : List Char)
    (hs : Char.ofNat 0 ∉ s) (ht : Char.ofNat 0 ∉ t) :
    strncmpList s t n = 0 ↔ s.take n = t.take n := by
  induction n generalizing s t with
  | zero => simp [strncmpList]
  | succ n ih =>
    cases s with
    | nil =>
      cases t with
      | nil => simp [strncmpList]
      | cons d t =>
        have hd : d.toNat ≠ 0 := char_toNat_ne_zero (fun h => ht (by simp [h]))
        simp [strncmpList, neg_eq_zero, hd]
    | cons c s =>
      cases t with
      | nil =>
        have hc : c.toNat ≠ 0 := char_toNat_ne_zero (fun h => hs (by simp [h]))
        simp [strncmpList, hc]
      | cons d t =>
        have hs' : Char.ofNat 0 ∉ s := fun h => hs (List.mem_cons_of_mem _ h)
        have ht' : Char.ofNat 0 ∉ t := fun h => ht (List.mem_cons_of_mem _ h)
        by_cases hcd : c = d
        · subst hcd
          simp [strncmpList, ih s t hs' ht']
        · have hne : c.toNat ≠ d.toNat := fun h => hcd (char_toNat_inj h)
          simp [strncmpList, hcd, sub_eq_zero, hne]

/-- The companion-process test of line 189: `strncmp(vgl_compress, "proxy",
BUFFER_SIZE)` is zero exactly when the compression method is the literal
string `"proxy"`, provided the method has no interior NUL byte (a C string
never does). -/
lemma strncmp_proxy_iff (s : String) (hnul : Char.ofNat 0 ∉ s.data) :
    strncmpList s.data "proxy".data BUFFER_SIZE = 0 ↔ s = "proxy" := by
  have hpx : Char.ofNat 0 ∉ "proxy".data := by decide
  rw [strncmpList_eq_zero_iff BUFFER_SIZE s.data "proxy".data hnul hpx]
  have hp : "proxy".data.take BUFFER_SIZE = "proxy".data :=
    List.take_of_length_le (by decide)
  rw [hp]
  constructor
  · intro h
    have hlen : s.data.length = 5 := by
      have h2 := congrArg List.length h
      rw [List.length_take] at h2
      have h5 : ("proxy".data).length = 5 := rfl
      rw [h5] at h2
      simp only [BUFFER_SIZE] at h2
      omega
    have hself : s.data.take BUFFER_SIZE = s.data :=
      List.take_of_length_le (by rw [hlen]; decide)
    rw [hself] at h
    exact congrArg String.mk h
  · intro h
    subst h
    rfl

/-- Writing at the index just past a prefix replaces the following cell. -/
lemma set_append_cons {α : Type} (pre : List α) (y b : α) (tail : List α) :
    (pre ++ y :: tail).set pre.length b = pre ++ b :: tail := by
  induction pre with
  | nil => rfl
  | cons x l ih => simp [List.set, ih]

/-- The copy loop fills the `none` slots after a prefix with the passthrough
tokens, in order, leaving the suffix untouched. -/
lemma copyArgsFrom_fill (xs : List String) :
    ∀ (pre suf : List (Option String)),
      copyArgsFrom (pre ++ (List.replicate xs.length none ++ suf)) pre.length xs =
        pre ++ (xs.map some ++ suf) := by
  induction xs with
  | nil => intro pre suf; simp [copyArgsFrom]
  | cons a rest ih =>
    intro pre suf
    have h1 : pre ++ (List.replicate (a :: rest).length (none : Option String) ++ suf) =
        pre ++ (none : Option String) :: (List.replicate rest.length none ++ suf) := by
      simp [List.replicate_succ]
    rw [h1]
    simp only [copyArgsFrom]
    rw [set_append_cons]
    have h2 : pre ++ (some a) :: (List.replicate rest.length (none : Option String) ++ suf) =
        (pre ++ [some a]) ++ (List.replicate rest.length none ++ suf) := by simp
    have h3 : pre.length + 1 = (pre ++ [some a]).length := by simp
    rw [h2, h3, ih]
    simp

/-- Specialization of `copyArgsFrom_fill` to the eight-token prefix used by
the `vglrun` vector. -/
lemma copyArgsFrom_fill8 (x0 x1 x2 x3 x4 x5 x6 x7 : Option String) (xs : List String)
    (suf : List (Option String)) :
    copyArgsFrom ([x0, x1, x2, x3, x4, x5, x6, x7] ++ (List.replicate xs.length none ++ suf))
        8 xs =
      [x0, x1, x2, x3, x4, x5, x6, x7] ++ (xs.map some ++ suf) :=
  copyArgsFrom_fill xs [x0, x1, x2, x3, x4, x5, x6, x7] suf

/-- Setting the slot just past an eight-token prefix and a middle segment
rewrites the final cell. -/
lemma set_last_fixed8 {α : Type} (x0 x1 x2 x3 x4 x5 x6 x7 : α) (mid : List α) (y b : α) :
    ([x0, x1, x2, x3, x4, x5, x6, x7] ++ (mid ++ [y])).set (8 + mid.length) b =
      [x0, x1, x2, x3, x4, x5, x6, x7] ++ (mid ++ [b]) := by
  have h1 : ([x0, x1, x2, x3, x4, x5, x6, x7] : List α) ++ (mid ++ [y]) =
      ([x0, x1, x2, x3, x4, x5, x6, x7] ++ mid) ++ (y :: []) := by simp
  have h2 : ([x0, x1, x2, x3, x4, x5, x6, x7] : List α) ++ (mid ++ [b]) =
      ([x0, x1, x2, x3, x4, x5, x6, x7] ++ mid) ++ (b :: []) := by simp
  have h3 : (([x0, x1, x2, x3, x4, x5, x6, x7] ++ mid).length) = 8 + mid.length := by
    rw [List.length_append]
    norm_num
  rw [h1, h2, ← h3]
  exact set_append_cons ([x0, x1, x2, x3, x4, x5, x6, x7] ++ mid) y b []

/-- The slot-by-slot construction of lines 197-209 produces exactly the
seven fixed tokens, the separator, the passthrough arguments and a final
null slot. -/
lemma buildVglrunArgs_eq (cfg : BBConfig) (ps : List String) :
    buildVglrunArgs cfg ps =
      [some "vglrun", some "-c", some cfg.vgl_compress, some "-d", some cfg.x_display,
       some "-ld", some cfg.ld_path, some "--"] ++ ps.map some ++ [none] := by
  have hrep : List.replicate (9 + ps.length) (none : Option String) =
      [none, none, none, none, none, none, none, none] ++
        (List.replicate ps.length (none : Option String) ++ [none]) := by
    rw [show 9 + ps.length = 8 + ps.length + 1 by omega, List.replicate_succ',
      List.replicate_add]
    rfl
  simp only [buildVglrunArgs]
  rw [hrep]
  have hsets :
      (((((((([none, none, none, none, none, none, none, none] ++
          (List.replicate ps.length (none : Option String) ++ [none])).set 0
          (some "vglrun")).set 1 (some "-c")).set 2 (some cfg.vgl_compress)).set 3
          (some "-d")).set 4 (some cfg.x_display)).set 5 (some "-ld")).set 6
          (some cfg.ld_path)).set 7 (some "--") =
        [some "vglrun", some "-c", some cfg.vgl_compress, some "-d", some cfg.x_display,
         some "-ld", some cfg.ld_path, some "--"] ++
          (List.replicate ps.length (none : Option String) ++ [none]) := rfl
  rw [hsets, copyArgsFrom_fill8]
  rw [show (8 + ps.length) = 8 + (ps.map (some : String → Option String)).length by simp]
  rw [set_last_fixed8]
  simp

/-- Reading a null-terminated vector that is `map some` tokens followed by a
null slot yields exactly those tokens. -/
lemma cArgv_map_some (xs : List String) (ys : List (Option String)) :
    cArgv (xs.map some ++ (none :: ys)) = xs := by
  induction xs with
  | nil => rfl
  | cons a rest ih => simp [cArgv, ih]

/-- The status loop never sends a request. -/
lemma statusLoop_no_sendReq (m : String) (replies : List (List Char)) :
    ∀ b, Event.sendReq m ∉ statusLoop replies b := by
  induction replies with
  | nil => intro b; cases b <;> simp [statusLoop]
  | cons r rest ih =>
    intro b
    cases b
    · simp [statusLoop]
    · by_cases hr : r.isEmpty <;> simp [statusLoop, hr, ih true, ih false]

/-- C1: for every Redirect (`'Y'`) verdict, the wrapper argument vector
built by the orchestrator is spawned via fork-and-wait and reads back as
exactly `[vglrun, -c, compressionMethod, -d, display, -ld, driverPath, --]`
followed by the user's trailing arguments unchanged, in this order. -/
theorem c1_wrapper_argv (cfg : BBConfig) (ps : List String) (p : List Char) :
    Event.spawnForkWait (buildVglrunArgs cfg ps) ∈ handleReply cfg ps ('Y' :: p) ∧
    cArgv (buildVglrunArgs cfg ps) =
      ["vglrun", "-c", cfg.vgl_compress, "-d", cfg.x_display, "-ld", cfg.ld_path, "--"] ++ ps := by
  constructor
  · by_cases h : strncmpList cfg.vgl_compress.data "proxy".data BUFFER_SIZE = 0 <;>
      simp [handleReply, h]
  · rw [buildVglrunArgs_eq]
    simp [cArgv, cArgv_map_some, List.append_assoc]

/-- C9: in the proxied case the wrapper vector is allocated with exactly
`8 + len(passthrough) + 1` slots, every slot before the last is written
(no slot is left at its uninitialized value), and the final slot holds the
null terminator. -/
theorem c9_allocation (cfg : BBConfig) (ps : List String) :
    (buildVglrunArgs cfg ps).length = 8 + ps.length + 1 ∧
    ((buildVglrunArgs cfg ps).take (8 + ps.length)).all Option.isSome = true ∧
    (buildVglrunArgs cfg ps).getLast? = some none := by
  rw [buildVglrunArgs_eq]
  refine ⟨by simp; omega, ?_, ?_⟩
  · rw [show (8 + ps.length) =
        (([some "vglrun", some "-c", some cfg.vgl_compress, some "-d", some cfg.x_display,
          some "-ld", some cfg.ld_path, some "--"] : List (Option String)) ++
            ps.map some).length by simp; omega]
    rw [List.take_left]
    simp
  · exact List.getLast?_concat _

/-- C3: on a Redirect verdict a detached `[vglclient, -detach]` companion
fork is placed before the wrapper fork-and-wait exactly when the configured
compression method is not literally `"proxy"`; with method `"proxy"` the
branch contains no companion spawn. -/
theorem c3_companion (cfg : BBConfig) (ps : List String) (p : List Char)
    (hnul : Char.ofNat 0 ∉ cfg.vgl_compress.data) :
    (cfg.vgl_compress ≠ "proxy" →
      handleReply cfg ps ('Y' :: p) =
        [Event.logResponse (String.mk ('Y' :: p)), Event.logRunVgl,
         Event.spawnFork ["vglclient", "-detach"],
         Event.spawnForkWait (buildVglrunArgs cfg ps), Event.close]) ∧
    (cfg.vgl_compress = "proxy" →
      handleReply cfg ps ('Y' :: p) =
        [Event.logResponse (String.mk ('Y' :: p)), Event.logRunVgl,
         Event.spawnForkWait (buildVglrunArgs cfg ps), Event.close]) := by
  constructor
  · intro hne
    have h0 : strncmpList cfg.vgl_compress.data "proxy".data BUFFER_SIZE ≠ 0 :=
      fun h => hne ((strncmp_proxy_iff cfg.vgl_compress hnul).mp h)
    simp [handleReply, h0]
  · intro heq
    have h0 : strncmpList cfg.vgl_compress.data "proxy".data BUFFER_SIZE = 0 :=
      (strncmp_proxy_iff cfg.vgl_compress hnul).mpr heq
    simp [handleReply, h0]

/-- Witness for C3 at a concrete non-proxy configuration. -/
theorem c3_companion_witness :
    handleReply cfgEx ["app"] ('Y' :: ['e', 's']) =
      [Event.logResponse (String.mk ('Y' :: ['e', 's'])), Event.logRunVgl,
       Event.spawnFork ["vglclient", "-detach"],
       Event.spawnForkWait (buildVglrunArgs cfgEx ["app"]), Event.close] :=
  (c3_companion cfgEx ["app"] ['e', 's'] (by decide)).1 (by decide)

/-- C4: a reply whose first byte is neither `'N'` nor `'Y'` produces only a
response log, an error log of the raw payload, and a close — no spawn
operation of any kind occurs in the whole application loop, which ends
there. -/
theorem c4_unknown_no_spawn (cfg : BBConfig) (ps : List String) (c : Char) (p : List Char)
    (rest : List (List Char)) (hn : c ≠ 'N') (hy : c ≠ 'Y') :
    appLoop cfg ps ((c :: p) :: rest) true =
      [Event.logResponse (String.mk (c :: p)), Event.logProblem (String.mk (c :: p)),
       Event.close] ∧
    (appLoop cfg ps ((c :: p) :: rest) true).any isSpawn = false := by
  have hr : handleReply cfg ps (c :: p) =
      [Event.logResponse (String.mk (c :: p)), Event.logProblem (String.mk (c :: p)),
       Event.close] := by
    simp [handleReply, hn, hy]
  have happ : appLoop cfg ps ((c :: p) :: rest) true =
      [Event.logResponse (String.mk (c :: p)), Event.logProblem (String.mk (c :: p)),
       Event.close] := by
    simp [appLoop, hr, isClose]
  refine ⟨happ, ?_⟩
  rw [happ]
  simp [isSpawn]

/-- Witness for C4 with the unknown verdict byte `'W'`. -/
theorem c4_unknown_witness :
    appLoop cfgEx ["app"] (['W', 'a', 't'] :: []) true =
      [Event.logResponse (String.mk ['W', 'a', 't']), Event.logProblem (String.mk ['W', 'a', 't']),
       Event.close] ∧
    (appLoop cfgEx ["app"] (['W', 'a', 't'] :: []) true).any isSpawn = false :=
  c4_unknown_no_spawn cfgEx ["app"] 'W' ['a', 't'] [] (by decide) (by decide)

/-- C5: every verdict branch closes the connection (`socketClose` appears in
the events of every non-empty reply), the loop therefore ends with the
first meaningfully classified reply, and an unsuccessful read (empty entry)
does not end the loop. -/
theorem c5_first_reply_ends_loop (cfg : BBConfig) (ps : List String) (r : List Char)
    (rest : List (List Char)) (h : r ≠ []) :
    (handleReply cfg ps r).any isClose = true ∧
    appLoop cfg ps (r :: rest) true = handleReply cfg ps r ∧
    appLoop cfg ps ([] :: rest) true = appLoop cfg ps rest true := by
  obtain ⟨c, p, rfl⟩ := List.exists_cons_of_ne_nil h
  have hclose : (handleReply cfg ps (c :: p)).any isClose = true := by
    by_cases hn : c = 'N'
    · simp [handleReply, hn, isClose]
    · by_cases hy : c = 'Y'
      · by_cases hp : strncmpList cfg.vgl_compress.data "proxy".data BUFFER_SIZE = 0 <;>
          simp [handleReply, hn, hy, hp, isClose]
      · simp [handleReply, hn, hy, isClose]
  refine ⟨hclose, ?_, ?_⟩
  · simp [appLoop, hclose]
  · simp [appLoop]

/-- Witness for C5 at a concrete `'N'` reply. -/
theorem c5_first_reply_witness :
    (handleReply cfgEx ["app"] ['N', 'o']).any isClose = true ∧
    appLoop cfgEx ["app"] (['N', 'o'] :: []) true = handleReply cfgEx ["app"] ['N', 'o'] ∧
    appLoop cfgEx ["app"] ([] :: []) true = appLoop cfgEx ["app"] [] true :=
  c5_first_reply_ends_loop cfgEx ["app"] ['N', 'o'] [] (by decide)

/-- C2: on an Allow (`'N'`) verdict the run is Direct — the events are the
connect, the availability request, the response log, the close, the log,
and an in-place exec of exactly the parsed trailing arguments, verbatim and
in order. -/
theorem c2_direct_plan (cfg : BBConfig) (args : List String) (st : OptState) (a : String)
    (ts : List String) (p : List Char) (rest : List (List Char))
    (hparse : parseArgs args cfg = ParsePhase.parsed st (a :: ts)) :
    (mainModel cfg RunMode.runApp args true true (('N' :: p) :: rest)).events =
      [Event.connect st.config.socket_path, Event.sendReq "Checking availability...",
       Event.logResponse (String.mk ('N' :: p)), Event.close, Event.logRunNormal,
       Event.spawnExec (a :: ts)] := by
  have hh : handleReply st.config (a :: ts) ('N' :: p) =
      [Event.logResponse (String.mk ('N' :: p)), Event.close, Event.logRunNormal,
       Event.spawnExec (a :: ts)] := by
    simp [handleReply]
  simp [mainModel, hparse, mainAfterParse, resolveRunMode, appLoop, hh, isClose, isExec]

/-- Witness for C2 on the spec scenario arguments. -/
theorem c2_direct_plan_witness :
    (mainModel cfgEx RunMode.runApp ["app", "--flag"] true true (('N' :: ['o']) :: [])).events =
      [Event.connect stEx.config.socket_path, Event.sendReq "Checking availability...",
       Event.logResponse (String.mk ('N' :: ['o'])), Event.close, Event.logRunNormal,
       Event.spawnExec ("app" :: ["--flag"])] :=
  c2_direct_plan cfgEx ["app", "--flag"] stEx "app" ["--flag"] ['o'] [] (by decide)

/-- C6: an invocation whose options parse with no trailing command resolves
the run mode to Status, and the only request ever sent is the literal
`"Status?"` — in particular `"Checking availability..."` is never sent. -/
theorem c6_status_request (cfg : BBConfig) (args : List String) (st : OptState)
    (replies : List (List Char))
    (hparse : parseArgs args cfg = ParsePhase.parsed st []) :
    resolveRunMode RunMode.runApp [] = RunMode.runStatus ∧
    Event.sendReq "Status?" ∈ (mainModel cfg RunMode.runApp args true true replies).events ∧
    (∀ m, Event.sendReq m ∈ (mainModel cfg RunMode.runApp args true true replies).events →
      m = "Status?") := by
  have hev : (mainModel cfg RunMode.runApp args true true replies).events =
      [Event.connect st.config.socket_path, Event.sendReq "Status?"] ++
        statusLoop replies true ++ [Event.closeLog, Event.stopAll] := by
    simp [mainModel, hparse, mainAfterParse, resolveRunMode]
  refine ⟨by simp [resolveRunMode], ?_, ?_⟩
  · rw [hev]
    simp
  · intro m hm
    rw [hev] at hm
    have hnot := statusLoop_no_sendReq m replies true
    simp [List.mem_append, hnot] at hm
    exact hm

/-- Witness for C6 with an empty invocation. -/
theorem c6_status_request_witness :
    Event.sendReq "Status?" ∈ (mainModel cfgEx RunMode.runApp [] true true []).events :=
  (c6_status_request cfgEx [] stEx [] (by decide)).2.1

/-- C7: when the connection to the daemon's socket fails, the events are
exactly one connect attempt, the error log and the log teardown — no
request is sent, no retry occurs — and the process exits with the nonzero
failure status. -/
theorem c7_connect_failure (cfg : BBConfig) (args : List String) (st : OptState)
    (ts : List String) (replies : List (List Char))
    (hparse : parseArgs args cfg = ParsePhase.parsed st ts) :
    (mainModel cfg RunMode.runApp args true false replies).events =
      [Event.connect st.config.socket_path, Event.logConnectError, Event.closeLog] ∧
    (mainModel cfg RunMode.runApp args true false replies).exitStatus = some EXIT_FAILURE ∧
    EXIT_FAILURE ≠ 0 := by
  refine ⟨?_, ?_, by decide⟩ <;> simp [mainModel, hparse, mainAfterParse]

/-- Witness for C7 with a concrete invocation. -/
theorem c7_connect_failure_witness :
    (mainModel cfgEx RunMode.runApp ["app"] true false []).events =
      [Event.connect stEx.config.socket_path, Event.logConnectError, Event.closeLog] ∧
    (mainModel cfgEx RunMode.runApp ["app"] true false []).exitStatus = some EXIT_FAILURE ∧
    EXIT_FAILURE ≠ 0 :=
  c7_connect_failure cfgEx ["app"] stEx ["app"] [] (by decide)

/-- C8: the option loop does not accept `-q`.  The optstring
`"+cvVm:X:l:u:h|help"` has no `'q'`, so `getopt` yields `'?'` and the
`default` case prints usage and exits nonzero; the `case 'q'` quiet handler
(second conjunct) is dead code, because the lookup fails (third conjunct).
This refutes the claim that `-q` is accepted and sets verbosity to Quiet. -/
theorem c8_q_rejected :
    parseArgs ["-q", "glxgears"] cfgEx = ParsePhase.exit EXIT_FAILURE ∧
    applySwitch stEx 'q' "" = OptAction.set { stEx with verbosity := Verbosity.quiet } ∧
    optType 'q' = none := by
  decide

/-- C10: after an Unknown verdict the application loop spawns nothing and
`main` falls through to `return EXIT_SUCCESS` — the exit status is 0, the
error shows only in the log. -/
theorem c10_unknown_exit_success (cfg : BBConfig) (args : List String) (st : OptState)
    (a : String) (ts : List String) (c : Char) (p : List Char) (rest : List (List Char))
    (hparse : parseArgs args cfg = ParsePhase.parsed st (a :: ts))
    (hn : c ≠ 'N') (hy : c ≠ 'Y') :
    (mainModel cfg RunMode.runApp args true true ((c :: p) :: rest)).exitStatus =
      some EXIT_SUCCESS ∧ EXIT_SUCCESS = 0 := by
  have hh : handleReply st.config (a :: ts) (c :: p) =
      [Event.logResponse (String.mk (c :: p)), Event.logProblem (String.mk (c :: p)),
       Event.close] := by
    simp [handleReply, hn, hy]
  refine ⟨?_, rfl⟩
  simp [mainModel, hparse, mainAfterParse, resolveRunMode, appLoop, hh, isClose, isExec]

/-- Witness for C10 with the unknown verdict byte `'W'`. -/
theorem c10_unknown_exit_witness :
    (mainModel cfgEx RunMode.runApp ["app"] true true (('W' :: ['a', 't']) :: [])).exitStatus =
      some EXIT_SUCCESS ∧ EXIT_SUCCESS = 0 :=
  c10_unknown_exit_success cfgEx ["app"] stEx "app" [] 'W' ['a', 't'] []
    (by decide) (by decide) (by decide)

end Optirun
